import Mathlib

/-!
Verification development for the Navimag fleet-maintenance application
(sources: app.py and storage_hf.py).

The domain classes imported from maintenance_program.py (Component,
Equipment, Scheduler, Inventory, FailureLog, WorkOrder) are not part of the
available sources; every definition that embeds one of them is marked
"Modelled from the spec" in its doc comment and follows the specification
text.  Everything else is translated from app.py / storage_hf.py.

Representation choices: calendar dates are integer day counts, date-times
are integer minute counts, times of day are minutes after midnight, and
real-valued readings (horometro, odometro, repair hours, failure
timestamps in hours) are rationals.
-/

/-- Calendar dates, as a day count. -/
abbrev Date := Int

/-- Timestamps, as a minute count. -/
abbrev DateTime := Int

/-- Times of day, as minutes after midnight. -/
abbrev Time := Int

/-- Python datetime.datetime.combine: a date at a given time of day. -/
def combine (d : Date) (t : Time) : DateTime := d * 1440 + t

/-- Modelled from the spec: MaintenancePolicy (class Component in the code,
missing from the sources): a named rule with a criticality and up to three
trigger intervals (hours / km / days); an unset axis never triggers. -/
structure Component where
  name : String
  criticidad : String
  hours_interval : Option Rat
  km_interval : Option Rat
  days_interval : Option Int
deriving DecidableEq

/-- Modelled from the spec: ServiceRecord, the per (asset, policy) tracking of
the last service date / hours / km (class missing from the sources). -/
structure ServiceRecord where
  component : Component
  last_service_date : Date
  last_service_hours : Rat
  last_service_km : Rat
deriving DecidableEq

/-- Modelled from the spec: Equipment (the Asset of the data model; class
missing from the sources).  The components map is kept as an
insertion-ordered association list, mirroring a Python dict keyed by the
policy name. -/
structure Equipment where
  id : String
  description : String
  horometro : Rat
  odometro : Rat
  status : String
  components : List ServiceRecord
deriving DecidableEq

/-- Modelled from the spec: WorkOrder (class missing from the sources). -/
structure WorkOrder where
  id : String
  equipment_id : String
  component_name : String
  due_date : Date
  reason : String
  classification : String
  materials_used : List String
  status : String
  created_at : DateTime
  start_time : Option DateTime
  completed_at : Option DateTime
deriving DecidableEq

/-- Modelled from the spec: Equipment.register_component creates the baseline
ServiceRecord for a policy, defaulting unset fields to today / the current
cumulative readings; registering an already-present policy name replaces its
record in place (Python dict assignment keeps the key position). -/
def register_component (eq : Equipment) (comp : Component) (today : Date)
    (service_date : Option Date) (service_hours : Option Rat) (service_km : Option Rat) :
    Equipment :=
  let sr : ServiceRecord :=
    { component := comp
      last_service_date := service_date.getD today
      last_service_hours := service_hours.getD eq.horometro
      last_service_km := service_km.getD eq.odometro }
  if comp.name ∈ eq.components.map (fun r => r.component.name) then
    { eq with components := eq.components.map (fun r => if r.component.name = comp.name then sr else r) }
  else
    { eq with components := eq.components ++ [sr] }

/-- Modelled from the spec (4.1): an order counts as open while it is
pendiente or en progreso. -/
def isOpenOrder (o : WorkOrder) : Bool :=
  o.status == "pendiente" || o.status == "en progreso"

/-- Modelled from the spec (4.1): whether some open order already exists for
the exact (asset, policy) pair. -/
def hasOpenOrder (orders : List WorkOrder) (eqId compName : String) : Bool :=
  orders.any (fun o => o.equipment_id == eqId && o.component_name == compName && isOpenOrder o)

/-- Modelled from the spec (4.1): the three independent due axes with
inclusive thresholds; an unset axis never triggers and any true axis marks
the pair due. -/
def axisDue (today : Date) (eq : Equipment) (r : ServiceRecord) : Bool :=
  (match r.component.hours_interval with
   | some hi => decide (hi ≤ eq.horometro - r.last_service_hours)
   | none => false) ||
  (match r.component.km_interval with
   | some ki => decide (ki ≤ eq.odometro - r.last_service_km)
   | none => false) ||
  (match r.component.days_interval with
   | some di => decide ((di : Int) ≤ today - r.last_service_date)
   | none => false)

/-- Modelled from the spec (4.1): the order emitted for a due pair, with
status pendiente, due date today, the scheduled-maintenance reason and the
classification taken from the policy criticality. -/
def newOrder (today : Date) (eq : Equipment) (r : ServiceRecord) : WorkOrder :=
  { id := eq.id ++ ":" ++ r.component.name
    equipment_id := eq.id
    component_name := r.component.name
    due_date := today
    reason := "scheduled maintenance"
    classification := r.component.criticidad
    materials_used := []
    status := "pendiente"
    created_at := combine today 0
    start_time := none
    completed_at := none }

/-- All (asset, service-record) pairs the scheduler scans, in fleet order. -/
def schedulerPairs (fleet : List Equipment) : List (Equipment × ServiceRecord) :=
  fleet.flatMap (fun eq => eq.components.map (fun r => (eq, r)))

/-- Modelled from the spec (4.1): one pass of the due-maintenance scan over a
list of pairs, given the orders accumulated so far; a due pair with no open
order gets exactly one fresh pendiente order appended. -/
def checkStep (today : Date) : List WorkOrder → List (Equipment × ServiceRecord) → List WorkOrder
  | _, [] => []
  | orders, p :: rest =>
    if axisDue today p.1 p.2 && !(hasOpenOrder orders p.1.id p.2.component.name) then
      newOrder today p.1 p.2 :: checkStep today (orders ++ [newOrder today p.1 p.2]) rest
    else
      checkStep today orders rest

/-- Modelled from the spec (4.1): Scheduler.check_due_maintenance.  Returns
the updated pending-orders list together with the newly created orders;
service records are never mutated here. -/
def check_due_maintenance (today : Date) (fleet : List Equipment) (orders : List WorkOrder) :
    List WorkOrder × List WorkOrder :=
  (orders ++ checkStep today orders (schedulerPairs fleet),
   checkStep today orders (schedulerPairs fleet))

lemma hasOpenOrder_append (xs ys : List WorkOrder) (eqId compName : String) :
    hasOpenOrder (xs ++ ys) eqId compName =
      (hasOpenOrder xs eqId compName || hasOpenOrder ys eqId compName) := by
  simp [hasOpenOrder, List.any_append]

lemma hasOpenOrder_newOrder (orders : List WorkOrder) (today : Date)
    (eq : Equipment) (r : ServiceRecord) :
    hasOpenOrder (orders ++ [newOrder today eq r]) eq.id r.component.name = true := by
  rw [hasOpenOrder_append]
  simp [hasOpenOrder, newOrder, isOpenOrder]

lemma checkStep_covers (today : Date) :
    ∀ (ps : List (Equipment × ServiceRecord)) (orders : List WorkOrder)
      (eq : Equipment) (r : ServiceRecord),
      (eq, r) ∈ ps → axisDue today eq r = true →
      hasOpenOrder (orders ++ checkStep today orders ps) eq.id r.component.name = true := by
  intro ps
  induction ps with
  | nil =>
    intro orders eq r hmem _
    cases hmem
  | cons p rest ih =>
    intro orders eq r hmem hdue
    obtain ⟨e, r0⟩ := p
    by_cases hc : (axisDue today e r0 && !(hasOpenOrder orders e.id r0.component.name)) = true
    · have hstep : checkStep today orders ((e, r0) :: rest) =
          newOrder today e r0 :: checkStep today (orders ++ [newOrder today e r0]) rest := by
        simp [checkStep, hc]
      rw [hstep]
      have hassoc : orders ++ (newOrder today e r0 ::
            checkStep today (orders ++ [newOrder today e r0]) rest) =
          (orders ++ [newOrder today e r0]) ++
            checkStep today (orders ++ [newOrder today e r0]) rest := by
        simp
      rcases List.mem_cons.mp hmem with heq | htail
      · obtain ⟨heq1, heq2⟩ := Prod.mk.injEq .. ▸ heq
        subst heq1; subst heq2
        rw [hassoc, hasOpenOrder_append, hasOpenOrder_newOrder]
        simp
      · rw [hassoc]
        exact ih (orders ++ [newOrder today e r0]) eq r htail hdue
    · have hstep : checkStep today orders ((e, r0) :: rest) =
          checkStep today orders rest := by
        simp only [checkStep]
        rw [if_neg hc]
      rw [hstep]
      rcases List.mem_cons.mp hmem with heq | htail
      · obtain ⟨heq1, heq2⟩ := Prod.mk.injEq .. ▸ heq
        subst heq1; subst heq2
        have hopen : hasOpenOrder orders eq.id r.component.name = true := by
          by_contra hne
          have hfalse : hasOpenOrder orders eq.id r.component.name = false := by
            simpa using hne
          exact hc (by simp [hdue, hfalse])
        rw [hasOpenOrder_append, hopen]
        simp
      · exact ih orders eq r htail hdue

lemma checkStep_eq_nil (today : Date) :
    ∀ (ps : List (Equipment × ServiceRecord)) (orders : List WorkOrder),
      (∀ eq r, (eq, r) ∈ ps → axisDue today eq r = true →
        hasOpenOrder orders eq.id r.component.name = true) →
      checkStep today orders ps = [] := by
  intro ps
  induction ps with
  | nil => intro orders _; rfl
  | cons p rest ih =>
    intro orders h
    obtain ⟨e, r0⟩ := p
    have hcond : (axisDue today e r0 && !(hasOpenOrder orders e.id r0.component.name)) = false := by
      by_cases hdue : axisDue today e r0 = true
      · have := h e r0 (List.mem_cons_self _ _) hdue
        simp [hdue, this]
      · have hdue' : axisDue today e r0 = false := by simpa using hdue
        simp [hdue']
    have hstep : checkStep today orders ((e, r0) :: rest) = checkStep today orders rest := by
      simp only [checkStep]
      rw [if_neg (by simp [hcond])]
    rw [hstep]
    exact ih orders (fun eq r hmem hdue => h eq r (List.mem_cons_of_mem _ hmem) hdue)

/-- Claim C1: check_due_maintenance is idempotent absent completions.  With
the fleet, the readings and the date unchanged, and no completion in
between, the second of two consecutive calls returns zero newly created
orders: every due (asset, policy) pair already carries an open
scheduler-emitted order after the first call. -/
theorem check_due_maintenance_idempotent (today : Date) (fleet : List Equipment)
    (orders : List WorkOrder) :
    (check_due_maintenance today fleet
        (check_due_maintenance today fleet orders).1).2 = [] := by
  show checkStep today (orders ++ checkStep today orders (schedulerPairs fleet))
      (schedulerPairs fleet) = []
  apply checkStep_eq_nil
  intro eq r hmem hdue
  exact checkStep_covers today (schedulerPairs fleet) orders eq r hmem hdue

/-- The demo asset of the section-8 scenario: policy P with a 500-hour
interval registered at hours 0, readings advanced to 500 hours. -/
def policyP : Component :=
  { name := "P", criticidad := "alta", hours_interval := some 500,
    km_interval := none, days_interval := none }

def recT1 : ServiceRecord :=
  { component := policyP, last_service_date := 0, last_service_hours := 0, last_service_km := 0 }

def eqT1 : Equipment :=
  { id := "T1", description := "Tracto", horometro := 500, odometro := 0,
    status := "operativo", components := [recT1] }

/-- Claim C3: a (policy, record) pair is due exactly when at least one set
axis has reached its interval (inclusive threshold, unset axes never
trigger), and a due pair with no open order yields exactly one new pendiente
order, dated today and classified with the policy criticality. -/
theorem check_due_axes_and_emission (today : Date) (eq : Equipment) (r : ServiceRecord)
    (orders : List WorkOrder) :
    (axisDue today eq r = true ↔
      ((∃ hi, r.component.hours_interval = some hi ∧ hi ≤ eq.horometro - r.last_service_hours) ∨
       (∃ ki, r.component.km_interval = some ki ∧ ki ≤ eq.odometro - r.last_service_km) ∨
       (∃ di, r.component.days_interval = some di ∧ (di : Int) ≤ today - r.last_service_date)))
    ∧ (axisDue today eq r = true → hasOpenOrder orders eq.id r.component.name = false →
        checkStep today orders [(eq, r)] = [newOrder today eq r] ∧
        (newOrder today eq r).status = "pendiente" ∧
        (newOrder today eq r).due_date = today ∧
        (newOrder today eq r).classification = r.component.criticidad) := by
  constructor
  · rcases hh : r.component.hours_interval with _ | hi <;>
      rcases hk : r.component.km_interval with _ | ki <;>
        rcases hd : r.component.days_interval with _ | di <;>
          simp [axisDue, hh, hk, hd, or_assoc]
  · intro hdue hopen
    refine ⟨?_, rfl, rfl, rfl⟩
    simp [checkStep, hdue, hopen]

theorem check_due_axes_and_emission_witness :
    checkStep 0 [] [(eqT1, recT1)] = [newOrder 0 eqT1 recT1] ∧
    (newOrder 0 eqT1 recT1).status = "pendiente" ∧
    (newOrder 0 eqT1 recT1).due_date = 0 ∧
    (newOrder 0 eqT1 recT1).classification = recT1.component.criticidad :=
  (check_due_axes_and_emission 0 eqT1 recT1 []).2
    (by simp [axisDue, eqT1, recT1, policyP]) (by simp [hasOpenOrder])

/-- Modelled from the spec (4.5): one ReliabilityLog entry, as the tuple
appended by log_failure; the timestamp is measured in hours so that
timestamp differences are already in MTBF units. -/
structure FailureEntry where
  timestamp : Rat
  equipment_id : String
  component_name : String
  description : String
  repair_time_hours : Rat
deriving DecidableEq

/-- Modelled from the spec (4.5): an entry matches a query for an equipment
id and an optional component name; a missing component filter matches every
component of that equipment. -/
def matchesFailure (eqId : String) (comp : Option String) (e : FailureEntry) : Bool :=
  e.equipment_id == eqId &&
    (match comp with
     | none => true
     | some c => e.component_name == c)

/-- Timestamp of the last entry of a nonempty list, written with an explicit
head so the recursion is total. -/
def lastTimestamp (e : FailureEntry) : List FailureEntry → Rat
  | [] => e.timestamp
  | f :: fs => lastTimestamp f fs

/-- Modelled from the spec (4.5): FailureLog.calculate_mtbf.  Over the
matching entries (the log is chronological, so list order is timestamp
order), the mean time between failures is the span from the first to the
last matching timestamp divided by count minus one; with fewer than two
matching entries there is no value. -/
def calculate_mtbf (entries : List FailureEntry) (eqId : String) (comp : Option String) :
    Option Rat :=
  match entries.filter (matchesFailure eqId comp) with
  | [] => none
  | [_] => none
  | e :: f :: rest =>
      some ((lastTimestamp f rest - e.timestamp) / ((rest.length : Rat) + 1))

/-- Two failures for E1 at hour offsets 0 and 100. -/
def mtbfTwo : List FailureEntry :=
  [{ timestamp := 0, equipment_id := "E1", component_name := "C", description := "falla",
     repair_time_hours := 1 },
   { timestamp := 100, equipment_id := "E1", component_name := "C", description := "falla",
     repair_time_hours := 1 }]

/-- Three failures for E1 at hour offsets 0, 50 and 100. -/
def mtbfThree : List FailureEntry :=
  [{ timestamp := 0, equipment_id := "E1", component_name := "C", description := "falla",
     repair_time_hours := 1 },
   { timestamp := 50, equipment_id := "E1", component_name := "C", description := "falla",
     repair_time_hours := 1 },
   { timestamp := 100, equipment_id := "E1", component_name := "C", description := "falla",
     repair_time_hours := 1 }]

/-- Claim C5: calculate_mtbf is undefined with fewer than two matching
entries, equals last-minus-first matching timestamp divided by count minus
one otherwise, and in particular gives 100 for matching offsets 0 and 100,
and 50 for matching offsets 0, 50 and 100. -/
theorem calculate_mtbf_spec (entries : List FailureEntry) (eqId : String)
    (comp : Option String) :
    ((entries.filter (matchesFailure eqId comp)).length < 2 →
      calculate_mtbf entries eqId comp = none)
    ∧ (∀ e f rest, entries.filter (matchesFailure eqId comp) = e :: f :: rest →
        calculate_mtbf entries eqId comp =
          some ((lastTimestamp f rest - e.timestamp) / (((rest.length : Rat) + 2) - 1)))
    ∧ calculate_mtbf mtbfTwo ("E1") none = some 100
    ∧ calculate_mtbf mtbfThree ("E1") none = some 50 := by
  refine ⟨?_, ?_, ?_, ?_⟩
  · intro hlen
    unfold calculate_mtbf
    cases hf : entries.filter (matchesFailure eqId comp) with
    | nil => rfl
    | cons e tl =>
      cases tl with
      | nil => rfl
      | cons f rest =>
        rw [hf] at hlen
        simp at hlen
        omega
  · intro e f rest hf
    unfold calculate_mtbf
    rw [hf]
    ring_nf
  · norm_num [calculate_mtbf, mtbfTwo, matchesFailure, List.filter, lastTimestamp]
  · norm_num [calculate_mtbf, mtbfThree, matchesFailure, List.filter, lastTimestamp]

theorem calculate_mtbf_spec_witness :
    calculate_mtbf [] ("E1") none = none ∧
    calculate_mtbf mtbfThree ("E1") none = some 50 :=
  ⟨(calculate_mtbf_spec [] ("E1") none).1 (by simp),
   (calculate_mtbf_spec mtbfThree ("E1") none).2.2.2⟩

/-- One component entry of the section-6 snapshot schema (an element of a
fleet entry's components list in serialize_session_state / load_data). -/
structure SnapComponent where
  name : String
  criticidad : String
  hours_interval : Option Rat
  km_interval : Option Rat
  days_interval : Option Int
  last_service_date : Date
  last_service_hours : Rat
  last_service_km : Rat
deriving DecidableEq

/-- One fleet entry of the section-6 snapshot schema. -/
structure SnapEquipment where
  description : String
  horometro : Rat
  odometro : Rat
  status : String
  components : List SnapComponent
deriving DecidableEq

/-- One inventory entry of the section-6 snapshot schema. -/
structure SnapPart where
  stock : Int
  min_stock : Int
  fits_components : List String
deriving DecidableEq

/-- One pending_orders entry of the section-6 snapshot schema. -/
structure SnapOrder where
  id : String
  equipment_id : String
  component_name : String
  due_date : Date
  reason : String
  classification : String
  materials_used : List String
  status : String
  created_at : DateTime
  completed_at : Option DateTime
  start_time : Option DateTime
deriving DecidableEq

/-- One failures entry of the section-6 snapshot schema. -/
structure SnapFailure where
  timestamp : Rat
  equipment_id : String
  component_name : String
  description : String
  repair_time_hours : Rat
deriving DecidableEq

/-- A work request, as appended by operations_view in app.py; serialized and
reloaded verbatim apart from the date fields, which are structured here. -/
structure WorkRequest where
  id : String
  equipment_id : String
  component_name : String
  classification : String
  comments : String
  photo_name : Option String
  horometro : Rat
  date : Date
  status : String
  created_at : DateTime
deriving DecidableEq

/-- One entry of the USERS credential store of app.py: the plaintext
password together with the role. -/
structure UserRec where
  password : String
  role : String
deriving DecidableEq

/-- The full snapshot dictionary built by serialize_session_state in app.py:
the four section-6 keys plus work_requests, notifications_ops and users.
Python dicts are modelled as insertion-ordered association lists. -/
structure Snapshot where
  fleet : List (String × SnapEquipment)
  inventory : List (String × SnapPart)
  pending_orders : List SnapOrder
  work_requests : List WorkRequest
  failures : List SnapFailure
  notifications_ops : List String
  users : List (String × UserRec)
deriving DecidableEq

/-- Modelled from the spec (3, 4.4): one spare part of the Inventory; the
code keeps the quantities and the compatibility map in two dicts keyed by
the same name, collapsed here into one record per part. -/
structure PartStock where
  name : String
  quantity : Int
  min_quantity : Int
  compatible_policies : List String
deriving DecidableEq

/-- Modelled from the spec (4.4): the Inventory, insertion ordered. -/
structure Inventory where
  parts : List PartStock
deriving DecidableEq

/-- The error kinds of the section-7 design. -/
inductive DomainError where
  | duplicateName (name : String)
  | notFound (name : String)
  | invalidInput
deriving DecidableEq

/-- Modelled from the spec (4.4): Inventory.add_part fails with
DuplicateName when the part name already exists and otherwise appends the
new part. -/
def add_part (inv : Inventory) (name : String) (initial_stock min_stock : Int)
    (fits_components : List String) : Except DomainError Inventory :=
  if name ∈ inv.parts.map PartStock.name then
    Except.error (DomainError.duplicateName name)
  else
    Except.ok ⟨inv.parts ++ [⟨name, initial_stock, min_stock, fits_components⟩]⟩

/-- The in-memory session state of app.py: fleet, inventory, the scheduler's
pending orders, work requests, the failure log, operations notifications and
the USERS credential store. -/
structure Model where
  fleet : List (String × Equipment)
  inventory : Inventory
  pending_orders : List WorkOrder
  work_requests : List WorkRequest
  failures : List FailureEntry
  notifications_ops : List String
  users : List (String × UserRec)
deriving DecidableEq

/-- The components loop of serialize_session_state in app.py: one service
record serialized to its snapshot dictionary. -/
def serialize_record (r : ServiceRecord) : SnapComponent :=
  { name := r.component.name
    criticidad := r.component.criticidad
    hours_interval := r.component.hours_interval
    km_interval := r.component.km_interval
    days_interval := r.component.days_interval
    last_service_date := r.last_service_date
    last_service_hours := r.last_service_hours
    last_service_km := r.last_service_km }

/-- The fleet loop of serialize_session_state in app.py. -/
def serialize_equipment (eq : Equipment) : SnapEquipment :=
  { description := eq.description
    horometro := eq.horometro
    odometro := eq.odometro
    status := eq.status
    components := eq.components.map serialize_record }

/-- The inventory loop of serialize_session_state in app.py: quantities from
the stock dict, compatibilities from the part-mapping dict. -/
def serialize_part (p : PartStock) : String × SnapPart :=
  (p.name, { stock := p.quantity, min_stock := p.min_quantity,
             fits_components := p.compatible_policies })

/-- The orders loop of serialize_session_state in app.py. -/
def serialize_order (o : WorkOrder) : SnapOrder :=
  { id := o.id
    equipment_id := o.equipment_id
    component_name := o.component_name
    due_date := o.due_date
    reason := o.reason
    classification := o.classification
    materials_used := o.materials_used
    status := o.status
    created_at := o.created_at
    completed_at := o.completed_at
    start_time := o.start_time }

/-- The failures loop of serialize_session_state in app.py. -/
def serialize_failure (e : FailureEntry) : SnapFailure :=
  { timestamp := e.timestamp
    equipment_id := e.equipment_id
    component_name := e.component_name
    description := e.description
    repair_time_hours := e.repair_time_hours }

/-- serialize_session_state from app.py: the snapshot dictionary with keys
fleet, inventory, pending_orders, work_requests, failures,
notifications_ops and users (the last taken wholesale from USERS, passwords
included). -/
def serialize_session_state (m : Model) : Snapshot :=
  { fleet := m.fleet.map (fun p => (p.1, serialize_equipment p.2))
    inventory := m.inventory.parts.map serialize_part
    pending_orders := m.pending_orders.map serialize_order
    work_requests := m.work_requests
    failures := m.failures.map serialize_failure
    notifications_ops := m.notifications_ops
    users := m.users }

/-- The component reconstruction of load_data in app.py. -/
def load_component (c : SnapComponent) : Component :=
  { name := c.name
    criticidad := c.criticidad
    hours_interval := c.hours_interval
    km_interval := c.km_interval
    days_interval := c.days_interval }

/-- The service record produced when load_data registers a snapshot
component with its explicit last-service values. -/
def load_record (c : SnapComponent) : ServiceRecord :=
  { component := load_component c
    last_service_date := c.last_service_date
    last_service_hours := c.last_service_hours
    last_service_km := c.last_service_km }

/-- The fleet loop of load_data in app.py: a fresh Equipment whose readings
and status come from the snapshot and whose components are registered one by
one with their stored last-service values. -/
def load_equipment (today : Date) (eq_id : String) (info : SnapEquipment) : Equipment :=
  info.components.foldl
    (fun e c => register_component e (load_component c) today
      (some c.last_service_date) (some c.last_service_hours) (some c.last_service_km))
    { id := eq_id, description := info.description, horometro := info.horometro,
      odometro := info.odometro, status := info.status, components := [] }

/-- The inventory loop of load_data in app.py: add_part per snapshot entry;
a raised DuplicateName aborts the loop, as an uncaught Python exception
would. -/
def load_inventory : Inventory → List (String × SnapPart) → Except DomainError Inventory
  | inv, [] => Except.ok inv
  | inv, p :: ps =>
    match add_part inv p.1 p.2.stock p.2.min_stock p.2.fits_components with
    | Except.error e => Except.error e
    | Except.ok inv2 => load_inventory inv2 ps

/-- The orders loop of load_data in app.py. -/
def load_order (od : SnapOrder) : WorkOrder :=
  { id := od.id
    equipment_id := od.equipment_id
    component_name := od.component_name
    due_date := od.due_date
    reason := od.reason
    classification := od.classification
    materials_used := od.materials_used
    status := od.status
    created_at := od.created_at
    start_time := od.start_time
    completed_at := od.completed_at }

/-- The failures loop of load_data in app.py. -/
def load_failure (f : SnapFailure) : FailureEntry :=
  { timestamp := f.timestamp
    equipment_id := f.equipment_id
    component_name := f.component_name
    description := f.description
    repair_time_hours := f.repair_time_hours }

/-- The users loop of load_data in app.py: each snapshot user overwrites the
USERS entry of the same name or is appended (dict update keeps positions). -/
def merge_users (current incoming : List (String × UserRec)) : List (String × UserRec) :=
  incoming.foldl
    (fun acc p =>
      if p.1 ∈ acc.map Prod.fst then
        acc.map (fun q => if q.1 = p.1 then p else q)
      else acc ++ [p])
    current

/-- The body of load_data in app.py once a non-empty snapshot is in hand:
every session-state component is rebuilt from the snapshot; only the USERS
store is merged instead of replaced. -/
def load_model (today : Date) (m : Model) (s : Snapshot) : Except DomainError Model :=
  match load_inventory ⟨[]⟩ s.inventory with
  | Except.error e => Except.error e
  | Except.ok inv =>
    Except.ok
      { fleet := s.fleet.map (fun p => (p.1, load_equipment today p.1 p.2))
        inventory := inv
        pending_orders := s.pending_orders.map load_order
        work_requests := s.work_requests
        failures := s.failures.map load_failure
        notifications_ops := s.notifications_ops
        users := merge_users m.users s.users }

/-- load_data from app.py: a failed hf_load_state call is caught (warning
only) and an empty snapshot is skipped, both leaving the session state
untouched; otherwise the model is rebuilt from the snapshot. -/
def load_data (today : Date) (m : Model) (r : Except String (Option Snapshot)) :
    Except DomainError Model :=
  match r with
  | Except.error _ => Except.ok m
  | Except.ok none => Except.ok m
  | Except.ok (some s) => load_model today m s

/-- Well-formedness of a snapshot for the round-trip claim: dictionary keys
are unique, as they necessarily are in the Python dicts the snapshot is
serialized from. -/
def wellFormedSnapshot (s : Snapshot) : Prop :=
  (s.inventory.map Prod.fst).Nodup ∧
  ∀ p ∈ s.fleet, ((p.2.components.map SnapComponent.name).Nodup)

lemma serialize_record_load_record (c : SnapComponent) :
    serialize_record (load_record c) = c := rfl

lemma serialize_order_load_order (od : SnapOrder) :
    serialize_order (load_order od) = od := rfl

lemma serialize_failure_load_failure (f : SnapFailure) :
    serialize_failure (load_failure f) = f := rfl

lemma foldl_register_component (today : Date) :
    ∀ (cs : List SnapComponent) (e : Equipment),
      (cs.map SnapComponent.name).Nodup →
      (∀ c ∈ cs, c.name ∉ e.components.map (fun r => r.component.name)) →
      cs.foldl (fun acc c => register_component acc (load_component c) today
          (some c.last_service_date) (some c.last_service_hours) (some c.last_service_km)) e =
        { e with components := e.components ++ cs.map load_record } := by
  intro cs
  induction cs with
  | nil =>
    intro e _ _
    simp
  | cons c cs ih =>
    intro e hnodup hdisj
    have hcons : c.name ∉ cs.map SnapComponent.name ∧ (cs.map SnapComponent.name).Nodup := by
      have h0 := hnodup
      simp only [List.map_cons, List.nodup_cons] at h0
      exact h0
    have hni : (load_component c).name ∉ e.components.map (fun r => r.component.name) := by
      simpa [load_component] using hdisj c (List.mem_cons_self _ _)
    have hstep : register_component e (load_component c) today
        (some c.last_service_date) (some c.last_service_hours) (some c.last_service_km) =
        { e with components := e.components ++ [load_record c] } := by
      simp [register_component, hni]
      rfl
    have hdisj' : ∀ c' ∈ cs, c'.name ∉
        (({ e with components := e.components ++ [load_record c] } : Equipment)).components.map
          (fun r => r.component.name) := by
      intro c' hc'
      simp only [List.map_append, List.mem_append]
      rintro (h | h)
      · exact hdisj c' (List.mem_cons_of_mem _ hc') h
      · have hcc : c'.name = c.name := by
          simpa [load_record, load_component] using h
        exact hcons.1 (hcc ▸ List.mem_map_of_mem SnapComponent.name hc')
    rw [List.foldl_cons, hstep, ih _ hcons.2 hdisj']
    simp

lemma serialize_load_equipment (today : Date) (eq_id : String) (info : SnapEquipment)
    (h : (info.components.map SnapComponent.name).Nodup) :
    serialize_equipment (load_equipment today eq_id info) = info := by
  obtain ⟨desc, hor, odo, stat, comps⟩ := info
  show serialize_equipment
      (comps.foldl (fun e c => register_component e (load_component c) today
        (some c.last_service_date) (some c.last_service_hours) (some c.last_service_km))
        { id := eq_id, description := desc, horometro := hor,
          odometro := odo, status := stat, components := [] }) = _
  rw [foldl_register_component today comps _ (by simpa using h) (by simp)]
  simp only [serialize_equipment, List.nil_append, List.map_map]
  rw [show serialize_record ∘ load_record = id from funext serialize_record_load_record,
    List.map_id]

lemma load_inventory_ok :
    ∀ (ps : List (String × SnapPart)) (inv : Inventory),
      (ps.map Prod.fst).Nodup →
      (∀ p ∈ ps, p.1 ∉ inv.parts.map PartStock.name) →
      load_inventory inv ps =
        Except.ok ⟨inv.parts ++
          ps.map (fun p => ⟨p.1, p.2.stock, p.2.min_stock, p.2.fits_components⟩)⟩ := by
  intro ps
  induction ps with
  | nil =>
    intro inv _ _
    simp [load_inventory]
  | cons p ps ih =>
    intro inv hnodup hdisj
    have hcons : p.1 ∉ ps.map Prod.fst ∧ (ps.map Prod.fst).Nodup := by
      have h0 := hnodup
      simp only [List.map_cons, List.nodup_cons] at h0
      exact h0
    have hni : p.1 ∉ inv.parts.map PartStock.name := hdisj p (List.mem_cons_self _ _)
    have hstep : add_part inv p.1 p.2.stock p.2.min_stock p.2.fits_components =
        Except.ok ⟨inv.parts ++ [⟨p.1, p.2.stock, p.2.min_stock, p.2.fits_components⟩]⟩ := by
      simp [add_part, hni]
    have hdisj' : ∀ q ∈ ps, q.1 ∉
        (inv.parts ++ [(⟨p.1, p.2.stock, p.2.min_stock, p.2.fits_components⟩ : PartStock)]).map
          PartStock.name := by
      intro q hq
      simp only [List.map_append, List.mem_append]
      rintro (h | h)
      · exact hdisj q (List.mem_cons_of_mem _ hq) h
      · have hqq : q.1 = p.1 := by simpa using h
        exact hcons.1 (hqq ▸ List.mem_map_of_mem Prod.fst hq)
    show (match add_part inv p.1 p.2.stock p.2.min_stock p.2.fits_components with
          | Except.error e => Except.error e
          | Except.ok inv2 => load_inventory inv2 ps) = _
    rw [hstep]
    show load_inventory _ ps = _
    rw [ih _ hcons.2 hdisj']
    simp

/-- Claim C2: round-trip.  Loading a well-formed snapshot (load_data on a
successfully read, non-empty snapshot) and serializing the resulting model
back reproduces exactly the fleet, inventory, pending_orders and failures
content of the snapshot. -/
theorem snapshot_round_trip (today : Date) (m : Model) (s : Snapshot)
    (hwf : wellFormedSnapshot s) :
    ∃ m', load_data today m (Except.ok (some s)) = Except.ok m' ∧
      (serialize_session_state m').fleet = s.fleet ∧
      (serialize_session_state m').inventory = s.inventory ∧
      (serialize_session_state m').pending_orders = s.pending_orders ∧
      (serialize_session_state m').failures = s.failures := by
  obtain ⟨hinv, hfleet⟩ := hwf
  have hload : load_inventory ⟨[]⟩ s.inventory =
      Except.ok ⟨s.inventory.map
        (fun p => ⟨p.1, p.2.stock, p.2.min_stock, p.2.fits_components⟩)⟩ := by
    simpa using load_inventory_ok s.inventory ⟨[]⟩ hinv (by simp)
  have hld : load_data today m (Except.ok (some s)) = Except.ok
      { fleet := s.fleet.map (fun p => (p.1, load_equipment today p.1 p.2))
        inventory := ⟨s.inventory.map
          (fun p => ⟨p.1, p.2.stock, p.2.min_stock, p.2.fits_components⟩)⟩
        pending_orders := s.pending_orders.map load_order
        work_requests := s.work_requests
        failures := s.failures.map load_failure
        notifications_ops := s.notifications_ops
        users := merge_users m.users s.users } := by
    show load_model today m s = _
    unfold load_model
    rw [hload]
  refine ⟨_, hld, ?_, ?_, ?_, ?_⟩
  · simp only [serialize_session_state, List.map_map]
    have hcongr : ∀ p ∈ s.fleet,
        ((fun (q : String × Equipment) => (q.1, serialize_equipment q.2)) ∘
          (fun (p : String × SnapEquipment) => (p.1, load_equipment today p.1 p.2))) p =
          id p := by
      intro p hp
      show (p.1, serialize_equipment (load_equipment today p.1 p.2)) = p
      rw [serialize_load_equipment today p.1 p.2 (hfleet p hp)]
    rw [List.map_congr_left hcongr, List.map_id]
  · simp only [serialize_session_state, List.map_map]
    rw [show (serialize_part ∘
        (fun (p : String × SnapPart) =>
          (⟨p.1, p.2.stock, p.2.min_stock, p.2.fits_components⟩ : PartStock))) = id from
      funext (fun p => rfl), List.map_id]
  · simp only [serialize_session_state, List.map_map]
    rw [show serialize_order ∘ load_order = id from funext serialize_order_load_order,
      List.map_id]
  · simp only [serialize_session_state, List.map_map]
    rw [show serialize_failure ∘ load_failure = id from funext serialize_failure_load_failure,
      List.map_id]

/-- The empty session state. -/
def emptyModel : Model :=
  { fleet := [], inventory := ⟨[]⟩, pending_orders := [], work_requests := [],
    failures := [], notifications_ops := [], users := [] }

/-- A small well-formed snapshot exercising all four section-6 keys. -/
def sampleSnapshot : Snapshot :=
  { fleet := [("T1",
      { description := "Tracto Terberg", horometro := 500, odometro := 1000,
        status := "operativo",
        components := [{ name := "Amortiguadores", criticidad := "alta",
                         hours_interval := some 500, km_interval := some 50000,
                         days_interval := some 365, last_service_date := 0,
                         last_service_hours := 0, last_service_km := 0 }] })]
    inventory := [("Amortiguador delantero",
      { stock := 10, min_stock := 2, fits_components := ["Amortiguadores"] })]
    pending_orders := [{ id := "OT1", equipment_id := "T1",
                         component_name := "Amortiguadores", due_date := 7,
                         reason := "scheduled maintenance", classification := "alta",
                         materials_used := [], status := "pendiente", created_at := 0,
                         completed_at := none, start_time := none }]
    work_requests := []
    failures := [{ timestamp := 0, equipment_id := "T1", component_name := "Luces",
                   description := "falla", repair_time_hours := 2 }]
    notifications_ops := []
    users := [] }

theorem snapshot_round_trip_witness :
    ∃ m', load_data 0 emptyModel (Except.ok (some sampleSnapshot)) = Except.ok m' ∧
      (serialize_session_state m').fleet = sampleSnapshot.fleet ∧
      (serialize_session_state m').inventory = sampleSnapshot.inventory ∧
      (serialize_session_state m').pending_orders = sampleSnapshot.pending_orders ∧
      (serialize_session_state m').failures = sampleSnapshot.failures :=
  snapshot_round_trip 0 emptyModel sampleSnapshot ⟨by decide, by decide⟩

/-- The completion branch of manage_orders / mechanic_orders in app.py:
both timestamps are combined with the order's due date, and an end time
earlier than the start time is clamped up to the start time. -/
def completion_times (due_date : Date) (start_time end_time : Time) : DateTime × DateTime :=
  let start_dt := combine due_date start_time
  let end_dt := combine due_date end_time
  if end_dt < start_dt then (start_dt, start_dt) else (start_dt, end_dt)

/-- The full completion mutation of manage_orders / mechanic_orders in
app.py: materials are recorded, the status passes through en progreso to
completada, and the two timestamps are stamped with the clamped values. -/
def complete_order_form (ot : WorkOrder) (materials : List String)
    (start_time end_time : Time) : WorkOrder :=
  { ot with
    materials_used := materials
    status := "completada"
    start_time := some (completion_times ot.due_date start_time end_time).1
    completed_at := some (completion_times ot.due_date start_time end_time).2 }

/-- Claim C4: after a completion in which both timestamps are present,
completed_at is at least start_time; and when the operator supplies an end
time earlier than the start time, completed_at is set equal to start_time
instead of the completion being rejected. -/
theorem completed_at_clamped (ot : WorkOrder) (materials : List String) (a b : Time) :
    (∀ s e, (complete_order_form ot materials a b).start_time = some s →
        (complete_order_form ot materials a b).completed_at = some e → s ≤ e)
    ∧ (combine ot.due_date b < combine ot.due_date a →
        (complete_order_form ot materials a b).completed_at =
          (complete_order_form ot materials a b).start_time) := by
  by_cases hlt : combine ot.due_date b < combine ot.due_date a
  · constructor
    · intro s e hs he
      simp only [complete_order_form, completion_times, if_pos hlt] at hs he
      rw [Option.some_inj] at hs he
      subst hs
      subst he
      exact le_refl _
    · intro _
      simp [complete_order_form, completion_times, if_pos hlt]
  · constructor
    · intro s e hs he
      simp only [complete_order_form, completion_times, if_neg hlt] at hs he
      rw [Option.some_inj] at hs he
      subst hs
      subst he
      exact le_of_not_lt hlt
    · intro hcontra
      exact absurd hcontra hlt

/-- A concrete pending order for the completion witness. -/
def otSample : WorkOrder :=
  { id := "OT9", equipment_id := "T1", component_name := "Luces", due_date := 10,
    reason := "falla", classification := "media", materials_used := [],
    status := "pendiente", created_at := 0, start_time := none, completed_at := none }

theorem completed_at_clamped_witness :
    (15000 : Int) ≤ 15000 ∧
    (complete_order_form otSample [] 600 480).completed_at =
      (complete_order_form otSample [] 600 480).start_time :=
  ⟨(completed_at_clamped otSample [] 600 480).1 15000 15000 (by decide) (by decide),
   (completed_at_clamped otSample [] 600 480).2 (by decide)⟩

/-- From operations_view in app.py: raising a work request moves the asset
to en solicitud only when it is currently operativo, otherwise its status is
left alone. -/
def raise_request_status (s : String) : String :=
  if s = "operativo" then "en solicitud" else s

/-- From process_work_requests and manual_order_form in app.py: opening a
work order against an asset sets en mantenimiento unconditionally. -/
def open_order_status (_s : String) : String := "en mantenimiento"

/-- From manage_orders and mechanic_orders in app.py: completing a work
order sets the asset operativo unconditionally. -/
def complete_order_status (_s : String) : String := "operativo"

/-- The status cycle stated by the specification (4.3), on the literal
status strings of the code. -/
def cycleStep (a b : String) : Prop :=
  (a = "operativo" ∧ b = "en solicitud") ∨
  (a = "en solicitud" ∧ b = "en mantenimiento") ∨
  (a = "en mantenimiento" ∧ b = "operativo")

/-- The transitions the code actually produces: the cycle plus the direct
jumps operativo to en mantenimiento (order opened with no prior request)
and en solicitud to operativo (order completed while a request is still
pending). -/
def observedStep (a b : String) : Prop :=
  cycleStep a b ∨
  (a = "operativo" ∧ b = "en mantenimiento") ∨
  (a = "en solicitud" ∧ b = "operativo")

/-- Claim C6 counterexample: completing a work order while its asset is
still en solicitud (reachable: scheduler-emitted orders leave the asset
status untouched, so a request can be raised while such an order is open)
moves the asset straight from en solicitud to operativo, a transition that
is not an arc of the specified cycle. -/
theorem status_cycle_counterexample :
    complete_order_status ("en solicitud") = "operativo" ∧
    ("en solicitud" : String) ≠ "operativo" ∧
    ¬ cycleStep ("en solicitud") ("operativo") := by
  refine ⟨rfl, by decide, ?_⟩
  intro h
  rcases h with ⟨h1, h2⟩ | ⟨h1, h2⟩ | ⟨h1, h2⟩
  · exact absurd h1 (by decide)
  · exact absurd h2 (by decide)
  · exact absurd h1 (by decide)

/-- Claim C6 amended: over the three valid statuses, raising a request moves
an asset from operativo to en solicitud and never changes any other status,
while opening a work order sets en mantenimiento and completing one sets
operativo from any status; every resulting change is either an arc of the
specified cycle or one of the two direct jumps operativo to en mantenimiento
and en solicitud to operativo. -/
theorem status_transitions_amended (s : String)
    (hs : s = "operativo" ∨ s = "en solicitud" ∨ s = "en mantenimiento") :
    (raise_request_status s ≠ s → s = "operativo" ∧
        raise_request_status s = "en solicitud" ∧
        observedStep s (raise_request_status s)) ∧
    (open_order_status s ≠ s → observedStep s (open_order_status s)) ∧
    (complete_order_status s ≠ s → observedStep s (complete_order_status s)) := by
  rcases hs with rfl | rfl | rfl <;>
    refine ⟨?_, ?_, ?_⟩ <;>
      intro h <;>
        simp_all [raise_request_status, open_order_status, complete_order_status,
          observedStep, cycleStep]

theorem status_transitions_amended_witness :
    (("operativo" : String) = "operativo" ∨ ("operativo" : String) = "en solicitud" ∨
      ("operativo" : String) = "en mantenimiento") ∧
    ((raise_request_status ("operativo") ≠ "operativo" → "operativo" = "operativo" ∧
        raise_request_status ("operativo") = "en solicitud" ∧
        observedStep ("operativo") (raise_request_status ("operativo"))) ∧
      (open_order_status ("operativo") ≠ "operativo" →
        observedStep ("operativo") (open_order_status ("operativo"))) ∧
      (complete_order_status ("operativo") ≠ "operativo" →
        observedStep ("operativo") (complete_order_status ("operativo")))) :=
  ⟨Or.inl rfl, status_transitions_amended ("operativo") (Or.inl rfl)⟩

/-- Outcome of one attempt to read the stored JSON in load_state of
storage_hf.py: the file can be absent (or the download can fail), it can be
present but unparsable, or it can parse; none stands for the empty object
the file may hold. -/
inductive ReadResult where
  | absent
  | corrupt
  | good (s : Option Snapshot)
deriving DecidableEq

/-- load_state from storage_hf.py: try the local mirror first, fall back to
a direct hub download, and return the empty state when neither read
succeeds; no failure escapes. -/
def load_state (localFile hubFile : ReadResult) : Option Snapshot :=
  match localFile with
  | ReadResult.good s => s
  | _ =>
    match hubFile with
    | ReadResult.good s => s
    | _ => none

/-- Claim C7: a failure while loading persisted state never crashes the core
and never leaves a partially loaded model: load_data returns the model
unchanged when hf_load_state raises or when the snapshot is empty, and
load_state yields the empty state whenever both the local mirror and the
hub copy are absent or unreadable (it is total by construction). -/
theorem load_failure_leaves_model (today : Date) (m : Model) :
    (∀ msg, load_data today m (Except.error msg) = Except.ok m) ∧
    load_data today m (Except.ok none) = Except.ok m ∧
    (∀ lf hf, (∀ s, lf ≠ ReadResult.good s) → (∀ s, hf ≠ ReadResult.good s) →
      load_state lf hf = none) := by
  refine ⟨fun _ => rfl, rfl, ?_⟩
  intro lf hf hlf hhf
  cases lf with
  | good s => exact absurd rfl (hlf s)
  | absent =>
    cases hf with
    | good s => exact absurd rfl (hhf s)
    | absent => rfl
    | corrupt => rfl
  | corrupt =>
    cases hf with
    | good s => exact absurd rfl (hhf s)
    | absent => rfl
    | corrupt => rfl

theorem load_failure_leaves_model_witness :
    load_data 0 emptyModel (Except.error ("sin red")) = Except.ok emptyModel ∧
    load_state ReadResult.absent ReadResult.corrupt = none :=
  ⟨(load_failure_leaves_model 0 emptyModel).1 ("sin red"),
   (load_failure_leaves_model 0 emptyModel).2.2 ReadResult.absent ReadResult.corrupt
     (fun _ h => ReadResult.noConfusion h) (fun _ h => ReadResult.noConfusion h)⟩

/-- The retry loop of storage_hf.py (function named with a leading
underscore there): outcome i tells whether the i-th push attempt succeeds;
after max_retries in-loop attempts plus the final one, a still-failing push
raises the retries-exhausted error. -/
def safe_push (outcomes : Nat → Bool) (max_retries : Nat) : Except String Unit :=
  if (List.range (max_retries + 1)).any outcomes then Except.ok ()
  else Except.error ("No se pudo hacer push tras reintentos")

/-- save_state from storage_hf.py: write the serialized payload and push
with the default three retries; the payload itself does not influence
whether the push succeeds. -/
def hf_save_state (_payload : Snapshot) (outcomes : Nat → Bool) : Except String Unit :=
  safe_push outcomes 3

/-- save_data from app.py: serialize the session state and push it; a
raised error is caught and surfaced as a warning, and the session state is
never touched either way. -/
def save_data (m : Model) (outcomes : Nat → Bool) : Model × Option String :=
  match hf_save_state (serialize_session_state m) outcomes with
  | Except.ok _ => (m, none)
  | Except.error e => (m, some ("No se pudo guardar en el repo HF: " ++ e))

/-- Claim C8: when every push attempt fails, the save failure is reported as
a warning while the already-applied in-memory mutation f is kept exactly
(the model component of the result is f m0, with no field rolled back);
and independently of the push outcome the model is never modified, so the
caller can retry saving the same state. -/
theorem save_failure_keeps_mutation (m0 : Model) (f : Model → Model) (outcomes : Nat → Bool)
    (hfail : ∀ i, outcomes i = false) :
    save_data (f m0) outcomes =
      (f m0, some ("No se pudo guardar en el repo HF: " ++
        "No se pudo hacer push tras reintentos")) ∧
    ∀ oc : Nat → Bool, (save_data (f m0) oc).1 = f m0 := by
  constructor
  · have hany : ∀ l : List Nat, l.any outcomes = false := by
      intro l
      induction l with
      | nil => rfl
      | cons x xs ih => simp [List.any_cons, hfail, ih]
    simp [save_data, hf_save_state, safe_push, hany]
  · intro oc
    rcases h : hf_save_state (serialize_session_state (f m0)) oc with e | u <;>
      simp [save_data, h]

theorem save_failure_keeps_mutation_witness :
    save_data emptyModel (fun _ => false) =
      (emptyModel, some ("No se pudo guardar en el repo HF: " ++
        "No se pudo hacer push tras reintentos")) :=
  (save_failure_keeps_mutation emptyModel id (fun _ => false) (fun _ => rfl)).1

/-- USERS from app.py: the process-wide demo credential store, plaintext
passwords included. -/
def USERS : List (String × UserRec) :=
  [("mantenimiento", { password := "1234", role := "Mantenimiento" }),
   ("operaciones", { password := "1234", role := "Terminales" })]

/-- Claim C9: serialize_session_state always writes the extra top-level keys
work_requests, notifications_ops and users into the snapshot, and the users
key carries each user record wholesale, plaintext password included, so the
credentials reach the shared store on every save. -/
theorem serialize_includes_credentials (m : Model) :
    (serialize_session_state m).users = m.users ∧
    (serialize_session_state m).work_requests = m.work_requests ∧
    (serialize_session_state m).notifications_ops = m.notifications_ops ∧
    (∀ u p r, (u, ({ password := p, role := r } : UserRec)) ∈ m.users →
      (u, ({ password := p, role := r } : UserRec)) ∈ (serialize_session_state m).users) := by
  refine ⟨rfl, rfl, rfl, ?_⟩
  intro u p r h
  simpa [serialize_session_state] using h

/-- The initial session state with the demo credential store. -/
def demoModel : Model := { emptyModel with users := USERS }

theorem serialize_includes_credentials_witness :
    ("mantenimiento", ({ password := "1234", role := "Mantenimiento" } : UserRec)) ∈
      demoModel.users ∧
    ("mantenimiento", ({ password := "1234", role := "Mantenimiento" } : UserRec)) ∈
      (serialize_session_state demoModel).users :=
  ⟨by decide,
   (serialize_includes_credentials demoModel).2.2.2 ("mantenimiento") ("1234")
     ("Mantenimiento") (by decide)⟩

/-- The usuarios table of export_csv_parquet in storage_hf.py: one row per
user holding the username and the role only. -/
def export_usuarios (users : List (String × UserRec)) : List (String × String) :=
  users.map (fun p => (p.1, p.2.role))

/-- Claim C10: the exported usuarios table contains exactly the username and
the role of each user and nothing else, and it is unchanged under any
rewriting of the password values, so passwords never reach the export. -/
theorem export_usuarios_omits_passwords (users : List (String × UserRec))
    (newpass : String × UserRec → String) :
    export_usuarios
        (users.map (fun p => (p.1, { password := newpass p, role := p.2.role }))) =
      export_usuarios users ∧
    export_usuarios users = users.map (fun p => (p.1, p.2.role)) := by
  constructor
  · simp [export_usuarios, List.map_map]
  · rfl
